import Mathlib

/-!
Shallow embedding of the pcie-tlp crate (src/lib.rs, src/adapter.rs,
src/device.rs) and proofs about the claims of its specification.

Conventions of the embedding:
* Rust machine integers (u8/u16/u32/u64) become `Nat`; where Rust arithmetic
  would truncate, an explicit `% 2^w` is applied; where Rust would panic
  (overflowing shifts, `unwrap` of `None`, out-of-bounds slicing,
  `unimplemented!`), the embedded function returns `none`.
* Channel senders are modelled by numeric identifiers; a value sent on a
  reply channel becomes a `Delivery` record naming the sender id.
* The `pci::PciConfiguration` register file is an external crate that is not
  part of this repository's sources; it is modelled from the specification
  (see `PciConfiguration` below).
-/

namespace Pcie

/-- Bitwise complement on a byte, Rust `!x` at type `u8`. -/
def u8not (n : Nat) : Nat := 0xff - (n % 256)

/-- Rust `u8::trailing_zeros` (8 for the zero byte). -/
def tz8 (n : Nat) : Nat :=
  if n &&& 0x01 ≠ 0 then 0
  else if n &&& 0x02 ≠ 0 then 1
  else if n &&& 0x04 ≠ 0 then 2
  else if n &&& 0x08 ≠ 0 then 3
  else if n &&& 0x10 ≠ 0 then 4
  else if n &&& 0x20 ≠ 0 then 5
  else if n &&& 0x40 ≠ 0 then 6
  else if n &&& 0x80 ≠ 0 then 7
  else 8

/-- Rust `u8::leading_zeros` (8 for the zero byte). -/
def lz8 (n : Nat) : Nat :=
  if n &&& 0x80 ≠ 0 then 0
  else if n &&& 0x40 ≠ 0 then 1
  else if n &&& 0x20 ≠ 0 then 2
  else if n &&& 0x10 ≠ 0 then 3
  else if n &&& 0x08 ≠ 0 then 4
  else if n &&& 0x04 ≠ 0 then 5
  else if n &&& 0x02 ≠ 0 then 6
  else if n &&& 0x01 ≠ 0 then 7
  else 8

/-- Rust `u32::to_le_bytes` as a list of four byte values. -/
def leBytes32 (v : Nat) : List Nat :=
  let x := v % 4294967296
  [x % 256, (x >>> 8) % 256, (x >>> 16) % 256, x >>> 24]

/-- Rust `u32::to_be_bytes` as a list of four byte values. -/
def beBytes32 (v : Nat) : List Nat :=
  let x := v % 4294967296
  [x >>> 24, (x >>> 16) % 256, (x >>> 8) % 256, x % 256]

/-- Packet specific data of config space related PCIe transactions
(struct `ConfigExtra`, src/lib.rs). -/
structure ConfigExtra where
  requester : Nat
  completer : Nat
  tag : Nat
  reg : Nat
  deriving DecidableEq

/-- Packet specific data of 32bit memory PCIe transactions
(struct `MemoryExtra`, src/lib.rs). -/
structure MemoryExtra where
  requester : Nat
  tag : Nat
  addr : Nat
  deriving DecidableEq

/-- Packet specific data of 64bit memory PCIe transactions
(struct `Memory64Extra`, src/lib.rs). -/
structure Memory64Extra where
  requester : Nat
  tag : Nat
  addr : Nat
  deriving DecidableEq

/-- Packet specific data of completion PCIe transactions
(struct `CompletionExtra`, src/lib.rs). -/
structure CompletionExtra where
  requester : Nat
  completer : Nat
  tag : Nat
  status : Nat
  bcm : Bool
  byte_count : Nat
  lower_address : Nat
  deriving DecidableEq

/-- The type of PCIe transaction (enum `PacketType`, src/lib.rs). -/
inductive PacketType where
  | MemoryRead (e : MemoryExtra)
  | MemoryRead64 (e : Memory64Extra)
  | MemoryReadLock
  | MemoryReadLock64
  | MemoryWrite (e : MemoryExtra)
  | MemoryWrite64 (e : Memory64Extra)
  | IoRead
  | IoWrite
  | Config0Read (e : ConfigExtra)
  | Config0Write (e : ConfigExtra)
  | Config1Read (e : ConfigExtra)
  | Config1Write (e : ConfigExtra)
  | Message (route : Nat)
  | MessageData (route : Nat)
  | Completion (e : CompletionExtra)
  | CompletionData (e : CompletionExtra)
  | CompletionLocked (e : CompletionExtra)
  | CompletionLockedData (e : CompletionExtra)
  | FetchAddAtomic
  | SwapAtomic
  | CasAtomic
  | LocalPrefix (p : Nat)
  | EndToEndPrefix (p : Nat)
  | Unknown
  deriving DecidableEq

/-- Traffic class of a PCIe packet (enum `TrafficClass`, src/lib.rs). -/
inductive TrafficClass where
  | TC0
  | TC1
  | TC2
  | TC3
  | TC4
  | TC5
  | TC6
  | TC7
  deriving DecidableEq

/-- The address type field of a PCIe transaction header
(enum `AddressType`, src/lib.rs). -/
inductive AddressType where
  | Default
  | TranslationRequest
  | Translated
  | Reserved
  deriving DecidableEq

/-- In-memory representation of PCIe transaction headers
(struct `TlpHeader`, src/lib.rs). The upper 4 bits of `byte_enable` are the
last DW byte enables, the lower 4 bits the first DW byte enables. -/
structure TlpHeader where
  _type : PacketType
  trafic_class : TrafficClass
  address_type : AddressType
  relax_ordering : Bool
  no_snoop : Bool
  id_ordering : Bool
  poisoned_data : Bool
  tlp_digest : Bool
  processing_hint : Bool
  byte_enable : Nat
  length : Nat
  deriving DecidableEq

/-- A TLP packet without CRC checksum attached (struct `Tlp`, src/lib.rs). -/
structure Tlp where
  header : TlpHeader
  data : Option (List Nat)
  deriving DecidableEq

/-- `TlpHeader::default()` from src/lib.rs. -/
def TlpHeader.default : TlpHeader :=
  { _type := .Unknown
    trafic_class := .TC0
    address_type := .Default
    relax_ordering := false
    no_snoop := false
    id_ordering := false
    poisoned_data := false
    processing_hint := false
    tlp_digest := false
    byte_enable := 0
    length := 0 }

/-- `Tlp::default()` from src/lib.rs. -/
def Tlp.default : Tlp := { header := TlpHeader.default, data := none }

/-- `TlpHeader::transaction_id` (src/lib.rs). `none` models the
`unimplemented!()` panic on the remaining packet types. -/
def TlpHeader.transaction_id? (h : TlpHeader) : Option Nat :=
  match h._type with
  | .Config0Read e | .Config0Write e => some (e.tag ||| (e.requester <<< 16))
  | .CompletionData e | .Completion e => some (e.tag ||| (e.requester <<< 16))
  | _ => none

/-- Builder of `Tlp` values (struct `TlpBuilder`, src/lib.rs). -/
structure TlpBuilder where
  t : Tlp

/-- `TlpBuilder::type` (named `r#type` in the source). -/
def TlpBuilder.rtype (b : TlpBuilder) (p : PacketType) : TlpBuilder :=
  ⟨{ b.t with header := { b.t.header with _type := p } }⟩

/-- `TlpBuilder::with_type`. -/
def TlpBuilder.with_type (p : PacketType) : TlpBuilder :=
  TlpBuilder.rtype ⟨Tlp.default⟩ p

/-- `TlpBuilder::length`; call sites pass a value already cast to `u16`. -/
def TlpBuilder.length (b : TlpBuilder) (len : Nat) : TlpBuilder :=
  ⟨{ b.t with header := { b.t.header with length := len } }⟩

/-- `TlpBuilder::data`: replaces the payload and sets `length` to the
payload length cast to `u16`. -/
def TlpBuilder.data (b : TlpBuilder) (d : List Nat) : TlpBuilder :=
  TlpBuilder.length ⟨{ b.t with data := some d }⟩ (d.length % 65536)

/-- `TlpBuilder::byte_enable`: overrides the BE byte verbatim. -/
def TlpBuilder.byte_enable (b : TlpBuilder) (be : Nat) : TlpBuilder :=
  ⟨{ b.t with header := { b.t.header with byte_enable := be } }⟩

/-- `TlpBuilder::build`. -/
def TlpBuilder.build (b : TlpBuilder) : Tlp := b.t

/-- `TlpBuilder::memory_read`. -/
def TlpBuilder.memory_read (e : MemoryExtra) : TlpBuilder :=
  TlpBuilder.with_type (.MemoryRead e)

/-- `TlpBuilder::memory_read64`. -/
def TlpBuilder.memory_read64 (e : Memory64Extra) : TlpBuilder :=
  TlpBuilder.with_type (.MemoryRead64 e)

/-- `TlpBuilder::io_read`. -/
def TlpBuilder.io_read : TlpBuilder := TlpBuilder.with_type .IoRead

/-- `TlpBuilder::io_write`. -/
def TlpBuilder.io_write : TlpBuilder := TlpBuilder.with_type .IoWrite

/-- `TlpBuilder::config0_read`. Note that, unlike `config0_write`, the
source does not set the length field here: it stays 0. -/
def TlpBuilder.config0_read (e : ConfigExtra) : TlpBuilder :=
  TlpBuilder.with_type (.Config0Read e)

/-- `TlpBuilder::config0_write`: sets the length to 1. -/
def TlpBuilder.config0_write (e : ConfigExtra) : TlpBuilder :=
  (TlpBuilder.with_type (.Config0Write e)).length 1

/-- `TlpBuilder::completion_data`. -/
def TlpBuilder.completion_data (e : CompletionExtra) : TlpBuilder :=
  TlpBuilder.with_type (.CompletionData e)

/-- The DW BE rule check opening `Tlp::is_valid` (src/lib.rs), written as
the source writes it:
`(length == 1 && be & 0xf == 0) | (length == 1 && be & 0xf0 != 0)
 | (length > 1 && be & 0xf0 == 0)`. -/
def beFailB (be len : Nat) : Bool :=
  (decide (len = 1) && decide (be &&& 0xf = 0))
  || (decide (len = 1) && decide (be &&& 0xf0 ≠ 0))
  || (decide (1 < len) && decide (be &&& 0xf0 = 0))

/-- The config-type check of `Tlp::is_valid` (src/lib.rs):
`trafic_class != TC0 || no_snoop || relax_ordering || length != 0b00001`. -/
def configFailB (tc : TrafficClass) (ns ro : Bool) (len : Nat) : Bool :=
  decide (tc ≠ .TC0) || ns || ro || decide (len ≠ 1)

/-- `Tlp::is_valid` (src/lib.rs). The DW BE rule is checked first and an
offending TLP is reported invalid for every packet type; afterwards the
match on the packet type reaches `unimplemented!()` (modelled as `none`,
a panic) for every type other than the four config types. -/
def Tlp.is_valid? (t : Tlp) : Option Bool :=
  let h := t.header
  if beFailB h.byte_enable h.length then
    some false
  else
    match h._type with
    | .Config0Read _ | .Config0Write _ | .Config1Read _ | .Config1Write _ =>
      if configFailB h.trafic_class h.no_snoop h.relax_ordering h.length then
        some false
      else
        some true
    | _ => none

/-- `ConfigData` (src/adapter.rs): payload of a `ConfigWrite` command. -/
structure ConfigData where
  reg_idx : Nat
  offset : Nat
  len : Nat
  data : Nat
  deriving DecidableEq

/-- Commands between the adapter and the bridge thread
(enum `AdapterMessage`, src/adapter.rs). Reply channel senders are
modelled as numeric identifiers. -/
inductive AdapterMessage where
  | IoRead (addr : Nat) (sender : Nat)
  | IoWrite (addr v : Nat) (sender : Nat)
  | MemoryRead (addr size : Nat) (sender : Nat)
  | MemoryWrite (addr : Nat) (bytes : List Nat) (sender : Nat)
  | ConfigRead (idx : Nat) (sender : Nat)
  | ConfigWrite (cd : ConfigData) (sender : Nat)
  | Exit
  deriving DecidableEq

/-- The reaction carried by a received `AdapterMessage`
(enum `Reaction`, src/adapter.rs). -/
inductive Reaction where
  | Notify (sender : Nat)
  | ReadConfig (sender : Nat)
  | Io (sender : Nat)
  | ReadMemory (sender : Nat)
  deriving DecidableEq

/-- `make_bdf` (src/adapter.rs):
`((bus as u16) << 8) | ((function & 0b111) | (device << 5))`. -/
def make_bdf (bus device function : Nat) : Nat :=
  (((bus % 256) <<< 8) ||| ((function &&& 0b111) ||| ((device % 256) <<< 5))) % 65536

/-- The bridge between the adapter and the simulated PCIe device
(struct `PciSimBridge`, src/adapter.rs); the channels and the device
thread handle are external to its transition functions. -/
structure PciSimBridge where
  bdf : Nat
  config_tag : Nat
  store : List (Nat × Reaction)
  deriving DecidableEq

/-- `HashMap::get` on the pending table. -/
def storeLookup (st : List (Nat × Reaction)) (k : Nat) : Option Reaction :=
  (st.find? (fun p => p.1 = k)).map Prod.snd

/-- `HashMap::insert` on the pending table (the new binding shadows any
older binding of the same key for `storeLookup`). -/
def storeInsert (st : List (Nat × Reaction)) (k : Nat) (v : Reaction) :
    List (Nat × Reaction) :=
  (k, v) :: st

/-- An observable action of `handle_adapter_msg`: a pending-table insertion
or a TLP sent on the lane, in program order. -/
inductive Event where
  | insert (id : Nat)
  | send (t : Tlp)
  deriving DecidableEq

/-- A value sent on a caller's reply channel by `handle_transaction_msg`. -/
inductive Delivery where
  | dword (sender v : Nat)
  | unit (sender : Nat)
  | bytes (sender : Nat) (bs : List Nat)
  deriving DecidableEq

/-- The request TLP built by the `ConfigRead` arm of
`PciSimBridge::handle_adapter_msg` (src/adapter.rs). -/
def configReadTlp (bdf tag idx : Nat) : Tlp :=
  (TlpBuilder.config0_read
    { requester := bdf
      completer := make_bdf 0x0 0x3 0x0
      tag := tag
      reg := idx % 65536 }).build

/-- The request TLP built by the `ConfigWrite` arm of
`PciSimBridge::handle_adapter_msg` (src/adapter.rs). The byte enable is
`(!(u8::MAX << len)) << offset` in `u8` arithmetic and the single data
DWORD is `data << (offset * 8)` in `u32` arithmetic. -/
def configWriteTlp (bdf tag : Nat) (cd : ConfigData) : Tlp :=
  let byte_enable := ((u8not ((0xff <<< cd.len) % 256)) <<< cd.offset) % 256
  let value := (cd.data <<< (cd.offset * 8)) % 4294967296
  ((((TlpBuilder.config0_write
    { requester := bdf
      completer := make_bdf 0x0 0x3 0x0
      tag := tag
      reg := cd.reg_idx % 65536 }).byte_enable byte_enable).data [value])).build

/-- The request TLP built by the `MemoryRead` arm of
`PciSimBridge::handle_adapter_msg` (src/adapter.rs). -/
def memReadTlp (bdf tag addr size : Nat) : Tlp :=
  let bits := addr &&& 0b11
  let byte_enable := (0xff <<< bits) &&& 0xf
  let sizeDW := (size + 3) >>> 2
  (((TlpBuilder.memory_read64
    { requester := bdf
      tag := tag
      addr := addr }).byte_enable byte_enable).length (sizeDW % 65536)).build

/-- `PciSimBridge::handle_adapter_msg` (src/adapter.rs). The result is the
updated bridge together with its observable actions in program order:
the pending-table insertion happens before the TLP is sent on the lane.
`none` models a panic: the `unimplemented!()` arms for `IoRead`, `IoWrite`
and `MemoryWrite`, and the overflowing shifts in the `ConfigWrite` arm
(`u8::MAX << len` for `len >= 8`, `data << (offset * 8)` for
`offset >= 4`). The 8-bit tag counter is modelled with a wrap; the claims
below never exercise the wrap. -/
def handle_adapter_msg (b : PciSimBridge) (msg : AdapterMessage) :
    Option (PciSimBridge × List Event) :=
  match msg with
  | .ConfigRead idx sender =>
    let trans_id := b.config_tag ||| (b.bdf <<< 16)
    let b' : PciSimBridge :=
      { b with
        config_tag := (b.config_tag + 1) % 256
        store := storeInsert b.store trans_id (.ReadConfig sender) }
    some (b', [.insert trans_id, .send (configReadTlp b.bdf (trans_id &&& 0xff) idx)])
  | .ConfigWrite cd sender =>
    if 8 ≤ cd.len ∨ 4 ≤ cd.offset then none
    else
      let trans_id := b.config_tag ||| (b.bdf <<< 16)
      let b' : PciSimBridge :=
        { b with
          config_tag := (b.config_tag + 1) % 256
          store := storeInsert b.store trans_id (.Notify sender) }
      some (b', [.insert trans_id, .send (configWriteTlp b.bdf (trans_id &&& 0xff) cd)])
  | .MemoryRead addr size sender =>
    let trans_id := b.config_tag ||| (b.bdf <<< 16)
    let b' : PciSimBridge :=
      { b with
        config_tag := (b.config_tag + 1) % 256
        store := storeInsert b.store trans_id (.ReadMemory sender) }
    some (b', [.insert trans_id, .send (memReadTlp b.bdf (trans_id &&& 0xff) addr size)])
  | _ => none

/-- The byte count the `ReadMemory` arm of
`PciSimBridge::handle_transaction_msg` takes from the last payload DWORD:
`4 - (be & 0xf0 | 0x8).leading_zeros()`, computed from the completion's
byte-enable byte. -/
def lastDwTake (be : Nat) : Nat := 4 - lz8 ((be &&& 0xf0) ||| 0x8)

/-- The bytes the `ReadMemory` arm appends for the payload DWORDs after the
first one: interior DWORDs contribute all four big-endian bytes, the last
DWORD contributes `lastDwTake` bytes. -/
def tailBytes (be : Nat) : List Nat → List Nat
  | [] => []
  | [d] => (beBytes32 d).take (lastDwTake be)
  | d :: d2 :: ds => beBytes32 d ++ tailBytes be (d2 :: ds)

/-- The byte reassembly of the `ReadMemory` arm of
`PciSimBridge::handle_transaction_msg` (src/adapter.rs): the first DWORD
contributes its big-endian bytes from `lower_address & 0b11` on, the rest
via `tailBytes`. -/
def reassembleBytes (be lower_address : Nat) : List Nat → List Nat
  | [] => []
  | d0 :: rest => (beBytes32 d0).drop (lower_address &&& 0b11) ++ tailBytes be rest

/-- `PciSimBridge::handle_transaction_msg` (src/adapter.rs). The pending
table is only read with `HashMap::get`: no arm removes an entry. `none`
models a panic: the outer `unimplemented!()` for every packet type other
than `CompletionData`, the inner one for an `Io` reaction, and the
`unwrap`/indexing panics on a missing or empty payload. -/
def handle_transaction_msg (b : PciSimBridge) (msg : Tlp) :
    Option (PciSimBridge × List Delivery) :=
  match msg.header._type with
  | .CompletionData extra =>
    match storeLookup b.store (extra.tag ||| (extra.requester <<< 16)) with
    | some (.ReadConfig sender) =>
      match msg.data with
      | some (v :: _) => some (b, [.dword sender v])
      | _ => none
    | some (.Notify sender) => some (b, [.unit sender])
    | some (.ReadMemory sender) =>
      match msg.data with
      | some (d0 :: rest) =>
        some (b, [.bytes sender
          (reassembleBytes msg.header.byte_enable extra.lower_address (d0 :: rest))])
      | _ => none
    | some (.Io _) => none
    | none => some (b, [])
  | _ => none

/-- The bridge state `PciAdapter::start` creates (src/adapter.rs):
BDF (0, 2, 0), tag counter 0, empty pending table. -/
def bridge0 : PciSimBridge :=
  { bdf := make_bdf 0x0 0x2 0x0, config_tag := 0, store := [] }

/-- Modelled from the spec: the register file of the external
`pci::PciConfiguration` crate, which is not part of this repository's
sources. The spec describes it through its interface
(`read_config_register`, `write_config_register`), the BAR register
conventions of section 6 (write-ones/read-back sizing against a per-register
writable mask, read-only low type bits) and the reference device values of
sections 4.3 and 8 (vendor 0x1234 / device 0x5678, subsystem 0x5555/0x6666,
BAR0 a 1 MiB 64-bit non-prefetchable memory region at registers 4/5, BAR2 a
256 B I/O region at register 6). Registers hold 32-bit values; a write
merges the given bytes into the register at the given byte offset and only
changes the bits of the register's writable mask. -/
structure PciConfiguration where
  regs : List Nat
  deriving DecidableEq

/-- Modelled from the spec: per-register writable mask of the reference test
device's configuration space. Register 4 is the low half of the 1 MiB
64-bit memory BAR (size mask `0xFFFF_FFF0` and size `0x100000` give
`0xFFF0_0000`), register 5 its fully writable upper half, register 6 the
256 B I/O BAR (size mask `0xFFFF_FFFC`, size `0x100` give `0xFFFF_FF00`).
The remaining registers, including the unimplemented BARs 7..9 and the
read-only identification registers, are modelled as read-only. -/
def writableMask (reg : Nat) : Nat :=
  if reg = 4 then 0xFFF00000
  else if reg = 5 then 0xFFFFFFFF
  else if reg = 6 then 0xFFFFFF00
  else 0

/-- Modelled from the spec: `PciConfiguration::read_config_register`. -/
def PciConfiguration.read_config_register (c : PciConfiguration) (reg : Nat) : Nat :=
  c.regs.getD reg 0

/-- Replace byte `i` of the 32-bit value `v` by `b`; bytes outside the
DWORD are ignored. -/
def setByte (v i b : Nat) : Nat :=
  if i < 4 then
    (v &&& (0xFFFFFFFF ^^^ (0xff <<< (8 * i)))) ||| ((b % 256) <<< (8 * i))
  else v

/-- Merge a byte slice into the 32-bit value `v` starting at byte
offset `offset`. -/
def mergeBytes (v offset : Nat) : List Nat → Nat
  | [] => v
  | b :: bs => mergeBytes (setByte v offset b) (offset + 1) bs

/-- Modelled from the spec: `PciConfiguration::write_config_register`.
Bytes are merged into the register at the byte offset and only the bits of
the register's writable mask change. -/
def PciConfiguration.write_config_register (c : PciConfiguration)
    (reg offset : Nat) (data : List Nat) : PciConfiguration :=
  let old := c.read_config_register reg
  let merged := mergeBytes old offset data
  let m := writableMask reg
  ⟨c.regs.set reg ((old &&& (0xFFFFFFFF ^^^ m)) ||| (merged &&& m))⟩

/-- Modelled from the spec: the initial configuration space of
`PciTestDevice::new` (src/device.rs): vendor/device 0x1234/0x5678 in
register 0, subsystem 0x5555/0x6666 in register 11, the 64-bit memory BAR
type bits `0b100` in register 4, the I/O BAR type bit `0b1` in register 6.
Registers the spec does not pin down are 0. -/
def testDeviceConfig : PciConfiguration :=
  ⟨((((List.replicate 64 0).set 0 0x56781234).set 11 0x66665555).set 4 0x4).set 6 0x1⟩

/-- The byte offset and byte slice the `Config0Write` arm of
`PciTestDevice::run` (src/device.rs) passes to `write_config_register`:
`offset = be.trailing_zeros()`, `len = 8 - be.leading_zeros() - offset`,
`data = &u32::to_le_bytes(value >> offset)[0..len]`. `none` models the
panics: the `u32` underflow of `len` when `be == 0`, and the out-of-range
slice when `len > 4`. -/
def config0WriteDecode (be v : Nat) : Option (Nat × List Nat) :=
  if be % 256 = 0 then none
  else
    let offset := tz8 (be % 256)
    let len := 8 - lz8 (be % 256) - offset
    if len ≤ 4 then some (offset, (leBytes32 ((v % 4294967296) >>> offset)).take len)
    else none

/-- The completion TLP the test device sends for config transactions. -/
def completionDataTlp (e : CompletionExtra) (d : List Nat) : Tlp :=
  ((TlpBuilder.completion_data e).data d).build

/-- One iteration of the receive loop of `PciTestDevice::run`
(src/device.rs): the device handles one TLP, possibly updating its
configuration space and sending response TLPs. `none` models the
`unimplemented!()` panic on unhandled packet types and the payload
`unwrap`/indexing and slicing panics of the `Config0Write` arm. -/
def PciTestDevice.step (cfg : PciConfiguration) (trans : Tlp) :
    Option (PciConfiguration × List Tlp) :=
  match trans.header._type with
  | .IoRead => some (cfg, [])
  | .IoWrite => some (cfg, [])
  | .Config0Read extra =>
    let value := cfg.read_config_register extra.reg
    some (cfg,
      [completionDataTlp
        { requester := extra.requester
          completer := extra.completer
          tag := extra.tag
          bcm := false
          byte_count := 4
          status := 0
          lower_address := 0 } [value]])
  | .Config0Write extra =>
    match trans.data with
    | some (value :: _) =>
      match config0WriteDecode trans.header.byte_enable value with
      | some (offset, bytes) =>
        let cfg' := cfg.write_config_register extra.reg offset bytes
        some (cfg',
          [completionDataTlp
            { requester := extra.requester
              completer := extra.completer
              tag := extra.tag
              bcm := false
              byte_count := 4
              status := 0
              lower_address := 0 } [value]])
      | none => none
    | _ => none
  | .Config1Read _ | .Config1Write _ => some (cfg, [])
  | .MemoryRead64 extra =>
    let lower_address :=
      ((extra.addr % 256) &&& 0b1111100)
        ||| (tz8 (trans.header.byte_enable &&& 0xf) % 4)
    let byte_enable := if trans.header.length = 1 then 0x0f else 0xff
    let tlp :=
      (((TlpBuilder.completion_data
        { requester := extra.requester
          completer := 0
          tag := extra.tag
          bcm := false
          byte_count := 0
          status := 0
          lower_address := lower_address }).byte_enable byte_enable).data
        (List.replicate trans.header.length 0x12345678)).build
    some (cfg, [tlp])
  | _ => none

/-- The little-endian DWORD packing of `PciAdapter::config_write`
(src/adapter.rs): `for b in data.iter().rev() { bytes = (bytes << 8) | b }`
in `u32` arithmetic. -/
def leAssemble (data : List Nat) : Nat :=
  data.reverse.foldl (fun acc b => ((acc <<< 8) ||| (b % 256)) % 4294967296) 0

/-- BAR region types (`PciBarRegionType` of the external `pci` crate). -/
inductive PciBarRegionType where
  | IoRegion
  | Memory32BitRegion
  | Memory64BitRegion
  deriving DecidableEq

/-- `MmioRegion` (src/adapter.rs). -/
structure MmioRegion where
  start : Nat
  length : Nat
  type_ : PciBarRegionType
  bar_reg : Nat
  slot_mapped : Bool
  mem_slot : Option Nat
  host_addr : Option Nat
  mmap_size : Option Nat
  deriving DecidableEq

/-- `PciAdapter::find_region` (src/adapter.rs): the first registered region
containing the address. -/
def find_region (regions : List MmioRegion) (addr : Nat) : Option MmioRegion :=
  regions.find? (fun r => decide (r.start ≤ addr) && decide (addr < r.start + r.length))

/-- Log lines of the adapter front end (the `error!` calls in
src/adapter.rs). -/
inductive LogEvent where
  | unknownRegion (addr : Nat)
  | invalidAccess (addr len : Nat)
  | slotMappedWarn (addr : Nat)
  deriving DecidableEq

/-- The full `MemoryRead` round trip against the reference test device: the
bridge command produces a `MemoryRead64` TLP (`handle_adapter_msg`), the
device answers it (`PciTestDevice.step`), and the bridge reassembles the
completion payload into bytes (`handle_transaction_msg`). The result is
the byte vector delivered on the caller's reply channel. -/
def roundTripMemoryRead (addr size : Nat) (cfg : PciConfiguration) :
    Option (List Nat) :=
  match handle_adapter_msg bridge0 (.MemoryRead addr size 0) with
  | some (b1, [_, .send req]) =>
    match PciTestDevice.step cfg req with
    | some (_, [comp]) =>
      match handle_transaction_msg b1 comp with
      | some (_, [.bytes _ out]) => some out
      | _ => none
    | _ => none
  | _ => none

/-- `PciAdapter::bar_mmio_read` (src/adapter.rs) against the reference test
device, returning the final contents of the caller's buffer and the log
lines. On an unknown address the source only logs: the buffer is returned
unchanged. `none` models the `assert_eq!(value.len(), data.len())` panic. -/
def bar_mmio_read (cfg : PciConfiguration) (regions : List MmioRegion)
    (addr : Nat) (buf : List Nat) : Option (List Nat × List LogEvent) :=
  match find_region regions addr with
  | some region =>
    if 8 < buf.length then
      some (List.replicate buf.length 0xff, [.invalidAccess addr buf.length])
    else
      let warn : List LogEvent :=
        if region.slot_mapped then [.slotMappedWarn addr] else []
      match roundTripMemoryRead addr buf.length cfg with
      | some value => if value.length = buf.length then some (value, warn) else none
      | none => none
  | none => some (buf, [.unknownRegion addr])

/-- The full `ConfigRead` round trip against the reference test device:
`PciAdapter::config_read` posts the command, the bridge emits a
`Config0Read` TLP, the device answers, and the bridge delivers the first
payload DWORD. -/
def adapterConfigRead (cfg : PciConfiguration) (reg : Nat) : Option Nat :=
  match handle_adapter_msg bridge0 (.ConfigRead reg 0) with
  | some (b1, [_, .send req]) =>
    match PciTestDevice.step cfg req with
    | some (_, [comp]) =>
      match handle_transaction_msg b1 comp with
      | some (_, [.dword _ v]) => some v
      | _ => none
    | _ => none
  | _ => none

/-- The full `ConfigWrite` round trip against the reference test device:
`PciAdapter::config_write` packs the bytes little-endian into a DWORD,
the bridge emits a `Config0Write` TLP, the device applies it to its
configuration space and acknowledges. The result is the device's updated
configuration space. -/
def adapterConfigWrite (cfg : PciConfiguration) (reg offset : Nat)
    (data : List Nat) : Option PciConfiguration :=
  let cd : ConfigData :=
    { reg_idx := reg, offset := offset, len := data.length, data := leAssemble data }
  match handle_adapter_msg bridge0 (.ConfigWrite cd 0) with
  | some (b1, [_, .send req]) =>
    match PciTestDevice.step cfg req with
    | some (cfg', [comp]) =>
      match handle_transaction_msg b1 comp with
      | some (_, [.unit _]) => some cfg'
      | _ => none
    | _ => none
  | _ => none

/-- `PciAdapter::config_write_u32` (src/adapter.rs). -/
def config_write_u32 (cfg : PciConfiguration) (reg v : Nat) :
    Option PciConfiguration :=
  adapterConfigWrite cfg reg 0 (leBytes32 v)

/-- `PciAdapter::detect_bar` (src/adapter.rs) against the reference test
device: save the current value, write all ones, read back the sized value,
restore the original. Returns the sized value and the device configuration
space after the restore. -/
def detect_bar (cfg : PciConfiguration) (reg : Nat) :
    Option (Nat × PciConfiguration) :=
  match adapterConfigRead cfg reg with
  | none => none
  | some pre =>
    match config_write_u32 cfg reg 0xFFFFFFFF with
    | none => none
    | some cfg1 =>
      match adapterConfigRead cfg1 reg with
      | none => none
      | some ret =>
        match config_write_u32 cfg1 reg pre with
        | none => none
        | some cfg2 => some (ret, cfg2)

/-- Whether a packet type is one of the four configuration transaction
types handled by `Tlp::is_valid`. -/
def isConfigType : PacketType → Bool
  | .Config0Read _ | .Config0Write _ | .Config1Read _ | .Config1Write _ => true
  | _ => false

/-- The byte-enable rule as the spec states it: if length = 1 DW the first
DW BE nibble must be non-zero and the last DW BE nibble zero; if length is
greater than 1 DW the last DW BE nibble must be non-zero (the source
checks only the upper nibble there). -/
def beOkB (be len : Nat) : Bool :=
  (!(decide (len = 1))
      || (decide (be &&& 0xf ≠ 0) && decide (be &&& 0xf0 = 0)))
  && (!(decide (1 < len)) || decide (be &&& 0xf0 ≠ 0))

/-- The config-type rule as the spec states it: traffic class TC0, relaxed
ordering and no-snoop clear, length exactly 1 DW. -/
def configOkB (tc : TrafficClass) (ro ns : Bool) (len : Nat) : Bool :=
  decide (tc = .TC0) && !ro && !ns && decide (len = 1)

/-- What `Tlp::is_valid` observably computes, stated the way the amended
claim reads: for the four config packet types it returns whether the
byte-enable rule and the config rules hold; for every other packet type it
returns false when the byte-enable rule fails and otherwise panics
(`none`). -/
def tlpValidSpec (t : Tlp) : Option Bool :=
  if isConfigType t.header._type then
    some (beOkB t.header.byte_enable t.header.length
      && configOkB t.header.trafic_class t.header.relax_ordering
          t.header.no_snoop t.header.length)
  else if beOkB t.header.byte_enable t.header.length then none
  else some false

/-- The request commands of the spec's pending-table invariant, with the
`ConfigWrite` argument bounds under which the source's shifts do not
panic (byte offset inside the DWORD, byte count below 8). -/
def isRequest : AdapterMessage → Prop
  | .ConfigRead _ _ => True
  | .ConfigWrite cd _ => cd.offset < 4 ∧ cd.len < 8
  | .MemoryRead _ _ _ => True
  | _ => False

/-- The pending-table reaction `handle_adapter_msg` records for a request
command. -/
def reactionOf : AdapterMessage → Reaction
  | .ConfigRead _ sender => .ReadConfig sender
  | .ConfigWrite _ sender => .Notify sender
  | .MemoryRead _ _ sender => .ReadMemory sender
  | _ => .Notify 0

/-- The bridge state after `handle_adapter_msg bridge0 (ConfigRead 0 7)`:
tag counter advanced, the transaction id 0x400000 pending. -/
def bridge1 : PciSimBridge :=
  { bdf := 0x40, config_tag := 1, store := [(0x400000, .ReadConfig 7)] }

/-- The completion the reference test device sends back for that config
read of register 0 (vendor/device DWORD 0x56781234). -/
def ctlp1 : Tlp :=
  completionDataTlp
    { requester := 0x40, completer := 0x60, tag := 0, status := 0,
      bcm := false, byte_count := 4, lower_address := 0 } [0x56781234]

/-- A `Completion` TLP without data, as the spec's "Completion without
data" example of a non-`CompletionData` incoming TLP. -/
def cNoData : Tlp :=
  { header :=
      { TlpHeader.default with
        _type := .Completion
          { requester := 0x40, completer := 0, tag := 0, status := 0,
            bcm := false, byte_count := 0, lower_address := 0 } }
    data := none }

/-- A `CompletionData` TLP whose transaction id (5 | 1 << 16) is pending
in no bridge state used below. -/
def ctlpUnknown : Tlp :=
  completionDataTlp
    { requester := 1, completer := 0, tag := 5, status := 0,
      bcm := false, byte_count := 4, lower_address := 0 } [0]

/-- The MMIO region the scenario S3/S4 registers: guest address
0x1_7000_0000, length 0x100000, 64-bit memory. -/
def s3Region : MmioRegion :=
  { start := 0x170000000, length := 0x100000, type_ := .Memory64BitRegion,
    bar_reg := 0, slot_mapped := false, mem_slot := none, host_addr := none,
    mmap_size := none }

/-- A concrete `Config0Write` request TLP: byte-enable 0x0C (two enabled
bytes after two trailing zero bits), payload DWORD 0x12345678. -/
def c10tlp : Tlp :=
  (((TlpBuilder.config0_write
    { requester := 0x40, completer := 0x60, tag := 0, reg := 4 }).byte_enable
      0x0c).data [0x12345678]).build

/-- C1: the claim says every request TLP the bridge emits satisfies
`Tlp::is_valid`, and in particular every emitted `Config0Read` TLP has
length 1 and a non-zero first-DW byte-enable nibble. The code does not:
`TlpBuilder::config0_read` never sets the length, so the `ConfigRead`
command emits a `Config0Read` TLP with length 0 and byte-enable 0, which
`Tlp::is_valid` rejects; and the multi-DWORD `MemoryRead64` request TLPs
are emitted with a zero last-DW byte-enable nibble, which `Tlp::is_valid`
also rejects. -/
theorem c1_code_bug :
    handle_adapter_msg bridge0 (AdapterMessage.ConfigRead 0 7)
        = some (bridge1, [Event.insert 0x400000, Event.send (configReadTlp 0x40 0 0)])
      ∧ (configReadTlp 0x40 0 0).header.length = 0
      ∧ (configReadTlp 0x40 0 0).header.byte_enable = 0
      ∧ Tlp.is_valid? (configReadTlp 0x40 0 0) = some false
      ∧ Tlp.is_valid? (memReadTlp 0x40 0 0x170000000 8) = some false := by
  decide

/-- C2: the claim says the byte vector the bridge reassembles for
`bar_mmio_read` always has exactly the requested length for sizes 1..8 and
any address in the region. It does not: a 1-byte read at the aligned
address 0x1_7000_0000 of the S3 region reassembles 4 bytes, so the
`assert_eq!(value.len(), data.len())` in `bar_mmio_read` fails (a panic,
`none`). -/
theorem c2_code_bug :
    (roundTripMemoryRead 0x170000000 1 testDeviceConfig).map List.length = some 4
      ∧ bar_mmio_read testDeviceConfig [s3Region] 0x170000000 [0x00] = none := by
  decide

/-- C3 counterexample: with no region registered,
`bar_mmio_read(0xDEAD_BEEF, 4)` logs the address but returns the buffer
unchanged, not filled with 0xff as the claim states. -/
theorem c3_counterexample :
    bar_mmio_read testDeviceConfig [] 0xDEADBEEF [0, 0, 0, 0]
        = some ([0, 0, 0, 0], [LogEvent.unknownRegion 0xDEADBEEF])
      ∧ ([0, 0, 0, 0] : List Nat) ≠ [0xff, 0xff, 0xff, 0xff] := by
  decide

/-- C3 (amended): for an address inside no registered MMIO region,
`bar_mmio_read` logs the address and returns successfully with the
caller's buffer unchanged (the 0xff fill happens only in the oversized
branch of a mapped access). -/
theorem c3_amended (cfg : PciConfiguration) (regions : List MmioRegion)
    (addr : Nat) (buf : List Nat) (h : find_region regions addr = none) :
    bar_mmio_read cfg regions addr buf = some (buf, [LogEvent.unknownRegion addr]) := by
  simp only [bar_mmio_read, h]

/-- C3 witness: the amended statement at a concrete unmapped address. -/
theorem c3_witness :
    find_region [] 5 = none
      ∧ bar_mmio_read testDeviceConfig [] 5 [1, 2]
          = some ([1, 2], [LogEvent.unknownRegion 5]) :=
  ⟨rfl, c3_amended testDeviceConfig [] 5 [1, 2] rfl⟩

/-- C4 counterexample: the bridge inserts the pending entry 0x400000 and
emits the TLP for `ConfigRead 0`; when the completion arrives, the reply is
delivered to the caller (so the synchronous call returns) yet the entry is
still in the pending table — `handle_transaction_msg` only calls
`HashMap::get`, never `remove`. -/
theorem c4_counterexample :
    handle_adapter_msg bridge0 (AdapterMessage.ConfigRead 0 7)
        = some (bridge1, [Event.insert 0x400000, Event.send (configReadTlp 0x40 0 0)])
      ∧ handle_transaction_msg bridge1 ctlp1
          = some (bridge1, [Delivery.dword 7 0x56781234])
      ∧ storeLookup bridge1.store 0x400000 = some (Reaction.ReadConfig 7) := by
  decide

/-- C6: with the S3 region registered and the reference test device
attached, `bar_mmio_read(0x1_7000_0000, 4)` yields [0x12, 0x34, 0x56, 0x78]
and `bar_mmio_read(0x1_7000_0000, 8)` yields the doubled pattern. -/
theorem c6_bar_mmio_read :
    bar_mmio_read testDeviceConfig [s3Region] 0x170000000 [0, 0, 0, 0]
        = some ([0x12, 0x34, 0x56, 0x78], [])
      ∧ bar_mmio_read testDeviceConfig [s3Region] 0x170000000 [0, 0, 0, 0, 0, 0, 0, 0]
          = some ([0x12, 0x34, 0x56, 0x78, 0x12, 0x34, 0x56, 0x78], []) := by
  decide

/-- C5 counterexample: a `MemoryRead64` TLP with length 1 and byte-enable
0x0F satisfies the claimed byte-enable rules, so the claim says
`Tlp::is_valid` accepts it; the code instead reaches `unimplemented!()`
(a panic, `none`) for every non-config packet type. -/
theorem c5_counterexample :
    Tlp.is_valid? (memReadTlp 0x40 0 0x170000000 4) = none
      ∧ (memReadTlp 0x40 0 0x170000000 4).header.length = 1
      ∧ (memReadTlp 0x40 0 0x170000000 4).header.byte_enable = 0xf := by
  decide

/-- C7 counterexample: the `MemoryRead` command of size 8 emits a request
TLP of length 2 DW whose last-DW byte-enable nibble is zero, not non-zero
as the claim requires for lengths above 1. -/
theorem c7_counterexample :
    1 < (memReadTlp 0x40 0 0x170000000 8).header.length
      ∧ (memReadTlp 0x40 0 0x170000000 8).header.byte_enable &&& 0xf0 = 0 := by
  decide

/-- C8 counterexample: an incoming `Completion` TLP without data is not
dropped silently: `handle_transaction_msg` reaches `unimplemented!()`
(a panic, `none`) for every packet type other than `CompletionData`. -/
theorem c8_counterexample :
    handle_transaction_msg bridge0 cNoData = none := by
  decide

/-- C9: against the reference test device, `detect_bar(r)` succeeds for
every BAR register index r in 4..10, returns the write-ones read-back
value determined by the register's writable mask, and a config read of r
after the call returns the same value as before it. -/
theorem c9_detect_bar (r : Nat) (h4 : 4 ≤ r) (h10 : r < 10) :
    (detect_bar testDeviceConfig r).isSome = true
      ∧ (detect_bar testDeviceConfig r).map Prod.fst
          = some ((testDeviceConfig.read_config_register r
              &&& (0xFFFFFFFF ^^^ writableMask r)) ||| writableMask r)
      ∧ (detect_bar testDeviceConfig r).bind (fun p => adapterConfigRead p.2 r)
          = adapterConfigRead testDeviceConfig r := by
  interval_cases r <;> decide

/-- C9 witness: the theorem applied at BAR register 4 (the low half of the
1 MiB 64-bit memory BAR). -/
theorem c9_witness :
    (detect_bar testDeviceConfig 4).isSome = true
      ∧ (detect_bar testDeviceConfig 4).map Prod.fst
          = some ((testDeviceConfig.read_config_register 4
              &&& (0xFFFFFFFF ^^^ writableMask 4)) ||| writableMask 4)
      ∧ (detect_bar testDeviceConfig 4).bind (fun p => adapterConfigRead p.2 4)
          = adapterConfigRead testDeviceConfig 4 :=
  c9_detect_bar 4 (by norm_num) (by norm_num)

theorem storeLookup_insert (st : List (Nat × Reaction)) (k : Nat) (v : Reaction) :
    storeLookup (storeInsert st k v) k = some v := by
  unfold storeLookup storeInsert
  rw [List.find?_cons_of_pos _ (by simp)]
  rfl

/-- C4 (amended): for the `ConfigRead`, `ConfigWrite` (with in-DWORD
offset and byte count below 8) and `MemoryRead` commands, the bridge
records the pending entry for the freshly allocated transaction id before
it sends the request TLP on the lane; but the completion handler never
removes anything: every successful `handle_transaction_msg` leaves the
pending table exactly as it was, so the entry is still present when the
synchronous call returns. -/
theorem c4_amended :
    (∀ (b : PciSimBridge) (msg : AdapterMessage), isRequest msg →
      ∃ b2 id tlp,
        handle_adapter_msg b msg = some (b2, [Event.insert id, Event.send tlp])
          ∧ storeLookup b2.store id = some (reactionOf msg))
    ∧ (∀ (b : PciSimBridge) (t : Tlp) (r : PciSimBridge × List Delivery),
        handle_transaction_msg b t = some r → r.1.store = b.store) := by
  constructor
  · intro b msg h
    cases msg with
    | ConfigRead idx sender =>
      exact ⟨_, _, _, rfl, storeLookup_insert _ _ _⟩
    | ConfigWrite cd sender =>
      obtain ⟨h1, h2⟩ := h
      refine ⟨{ b with
          config_tag := (b.config_tag + 1) % 256
          store := storeInsert b.store (b.config_tag ||| (b.bdf <<< 16))
            (.Notify sender) },
        b.config_tag ||| (b.bdf <<< 16),
        configWriteTlp b.bdf ((b.config_tag ||| (b.bdf <<< 16)) &&& 0xff) cd,
        ?_, storeLookup_insert _ _ _⟩
      simp only [handle_adapter_msg]
      rw [if_neg (by omega)]
    | MemoryRead addr size sender =>
      exact ⟨_, _, _, rfl, storeLookup_insert _ _ _⟩
    | IoRead addr sender => exact h.elim
    | IoWrite addr v sender => exact h.elim
    | MemoryWrite addr bytes sender => exact h.elim
    | Exit => exact h.elim
  · intro b t r h
    unfold handle_transaction_msg at h
    repeat' split at h
    all_goals first
      | exact Option.noConfusion h
      | (cases h; rfl)

/-- C4 witness: the amended statement applied to the concrete `ConfigRead`
exchange of `c4_counterexample`. -/
theorem c4_witness :
    isRequest (AdapterMessage.ConfigRead 0 7)
      ∧ (∃ b2 id tlp,
          handle_adapter_msg bridge0 (AdapterMessage.ConfigRead 0 7)
              = some (b2, [Event.insert id, Event.send tlp])
            ∧ storeLookup b2.store id
                = some (reactionOf (AdapterMessage.ConfigRead 0 7)))
      ∧ (bridge1, [Delivery.dword 7 0x56781234]).1.store = bridge1.store :=
  ⟨trivial, c4_amended.1 bridge0 _ trivial,
    c4_amended.2 bridge1 ctlp1 (bridge1, [Delivery.dword 7 0x56781234]) rfl⟩

theorem cwBE : ∀ o : Nat, o < 4 → ∀ l : Nat, l < 8 → 1 ≤ l → o + l ≤ 4 →
    (((u8not ((0xff <<< l) % 256)) <<< o) % 256 &&& 0xf0 = 0
      ∧ ((u8not ((0xff <<< l) % 256)) <<< o) % 256 &&& 0xf ≠ 0) := by
  decide

theorem mrBE : ∀ a : Nat, a < 4 →
    (((0xff <<< a) &&& 0xf) &&& 0xf0 = 0 ∧ ((0xff <<< a) &&& 0xf) &&& 0xf ≠ 0) := by
  decide

theorem beFailB_eq (be len : Nat) : beFailB be len = !(beOkB be len) := by
  unfold beFailB beOkB
  by_cases h1 : len = 1 <;> by_cases h2 : be &&& 0xf = 0 <;>
    by_cases h3 : be &&& 0xf0 = 0 <;> by_cases h4 : 1 < len <;>
    simp_all

theorem configFailB_eq (tc : TrafficClass) (ns ro : Bool) (len : Nat) :
    configFailB tc ns ro len = !(configOkB tc ro ns len) := by
  unfold configFailB configOkB
  by_cases h : tc = TrafficClass.TC0 <;> cases ns <;> cases ro <;>
    by_cases h1 : len = 1 <;> simp_all

/-- C5 (amended): `Tlp::is_valid` computes `tlpValidSpec`: for the four
config packet types it returns true exactly when the byte-enable rule
holds (length 1: first nibble non-zero and last nibble zero; length above
1: last nibble non-zero — the lower nibble is not checked there) together
with traffic class TC0, no relaxed ordering, no no-snoop and length
exactly 1; for every other packet type it returns false when the
byte-enable rule fails and otherwise panics instead of accepting. -/
theorem c5_amended (t : Tlp) : t.is_valid? = tlpValidSpec t := by
  rcases t with ⟨⟨pt, tc, at_, ro, ns, ido, pd, td, ph, be, len⟩, d⟩
  cases pt <;>
    simp only [Tlp.is_valid?, tlpValidSpec, isConfigType, beFailB_eq, configFailB_eq] <;>
    cases hbe : beOkB be len <;>
    cases hcf : configOkB tc ro ns len <;>
    simp [hbe, hcf]

/-- C7 (amended): a `ConfigWrite` whose byte offset and count fit inside
one DWORD emits a TLP of length 1 whose last-DW byte-enable nibble is zero
and first-DW nibble non-zero; a `MemoryRead` of any address and size emits
a TLP whose first-DW nibble is non-zero and whose last-DW nibble is always
zero — so for multi-DWORD reads the claim's "both nibbles non-zero" fails
by construction. -/
theorem c7_amended :
    (∀ (bdf tag reg offset len dword : Nat), offset + len ≤ 4 → 1 ≤ len →
      (configWriteTlp bdf tag ⟨reg, offset, len, dword⟩).header.length = 1
        ∧ (configWriteTlp bdf tag ⟨reg, offset, len, dword⟩).header.byte_enable &&& 0xf0 = 0
        ∧ (configWriteTlp bdf tag ⟨reg, offset, len, dword⟩).header.byte_enable &&& 0xf ≠ 0)
    ∧ (∀ (bdf tag addr size : Nat),
      (memReadTlp bdf tag addr size).header.byte_enable &&& 0xf0 = 0
        ∧ (memReadTlp bdf tag addr size).header.byte_enable &&& 0xf ≠ 0) := by
  constructor
  · intro bdf tag reg offset len dword hsum hlen
    have h := cwBE offset (by omega) len (by omega) (by omega) (by omega)
    exact ⟨rfl, h.1, h.2⟩
  · intro bdf tag addr size
    have hb : addr &&& 0b11 ≤ 3 := Nat.and_le_right
    have h := mrBE (addr &&& 0b11) (by omega)
    exact ⟨h.1, h.2⟩

/-- C7 witness: the amended statement at a full-DWORD config write and a
4-byte aligned memory read. -/
theorem c7_witness :
    (0 + 4 ≤ 4 ∧ 1 ≤ 4)
      ∧ ((configWriteTlp 0x40 0 ⟨4, 0, 4, 0xFFFFFFFF⟩).header.length = 1
          ∧ (configWriteTlp 0x40 0 ⟨4, 0, 4, 0xFFFFFFFF⟩).header.byte_enable &&& 0xf0 = 0
          ∧ (configWriteTlp 0x40 0 ⟨4, 0, 4, 0xFFFFFFFF⟩).header.byte_enable &&& 0xf ≠ 0)
      ∧ ((memReadTlp 0x40 0 0x170000000 4).header.byte_enable &&& 0xf0 = 0
          ∧ (memReadTlp 0x40 0 0x170000000 4).header.byte_enable &&& 0xf ≠ 0) :=
  ⟨⟨by norm_num, by norm_num⟩,
    c7_amended.1 0x40 0 4 0 4 0xFFFFFFFF (by norm_num) (by norm_num),
    c7_amended.2 0x40 0 0x170000000 4⟩

/-- C8 (amended): a `CompletionData` TLP whose transaction id misses the
pending table is dropped silently — no reply is delivered and the bridge
state is unchanged — while any incoming TLP that is not a `CompletionData`
packet (for example a `Completion` without data) makes
`handle_transaction_msg` reach `unimplemented!()`, a fatal panic rather
than a silent drop. -/
theorem c8_amended :
    (∀ (b : PciSimBridge) (t : Tlp) (e : CompletionExtra),
      t.header._type = PacketType.CompletionData e →
      storeLookup b.store (e.tag ||| (e.requester <<< 16)) = none →
      handle_transaction_msg b t = some (b, []))
    ∧ (∀ (b : PciSimBridge) (t : Tlp),
      (∀ e : CompletionExtra, t.header._type ≠ PacketType.CompletionData e) →
      handle_transaction_msg b t = none) := by
  constructor
  · intro b t e ht hl
    simp only [handle_transaction_msg, ht, hl]
  · intro b t hne
    unfold handle_transaction_msg
    cases ht : t.header._type <;>
      first
        | rfl
        | exact absurd ht (hne _)

/-- C8 witness: the amended statement at a concrete unmatched
`CompletionData` TLP against the fresh bridge (empty pending table). -/
theorem c8_witness :
    ctlpUnknown.header._type
        = PacketType.CompletionData
          { requester := 1, completer := 0, tag := 5, status := 0,
            bcm := false, byte_count := 4, lower_address := 0 }
      ∧ storeLookup bridge0.store (5 ||| (1 <<< 16)) = none
      ∧ handle_transaction_msg bridge0 ctlpUnknown = some (bridge0, []) :=
  ⟨rfl, rfl, c8_amended.1 bridge0 ctlpUnknown _ rfl rfl⟩

set_option maxRecDepth 8000

theorem tz8_div (be t : Nat) (h : be < 256) (h1 : 2 ^ t ∣ be)
    (h2 : ¬ 2 ^ (t + 1) ∣ be) : tz8 be = t := by
  have hbe0 : be ≠ 0 := by rintro rfl; exact h2 (dvd_zero _)
  have ht : t < 8 := by
    by_contra hc
    push_neg at hc
    have h8 : (2 : Nat) ^ 8 ≤ 2 ^ t := Nat.pow_le_pow_right (by norm_num) hc
    have hle := Nat.le_of_dvd (Nat.pos_of_ne_zero hbe0) h1
    have h256 : (256 : Nat) ≤ be := le_trans h8 hle
    omega
  have key : ∀ b : Nat, b < 256 → ∀ u : Nat, u < 8 →
      2 ^ u ∣ b → ¬ 2 ^ (u + 1) ∣ b → tz8 b = u := by decide
  exact key be h t ht h1 h2

/-- C10: a `Config0Write` TLP whose byte-enable has `t` trailing zero bits
(2^t divides it, 2^(t+1) does not) and `l = 8 - leading_zeros(be) - t`
enabled bits with `l ≤ 4` makes the reference test device store, at byte
offset `t` of register `reg`, the first `l` bytes of the little-endian
encoding of the payload DWORD shifted right by `t` bits (`value >> t`, a
bit shift, not a byte shift), and reply with a `CompletionData` echoing
the payload. -/
theorem c10_config0_write (cfg : PciConfiguration) (trans : Tlp)
    (e : ConfigExtra) (v tzc : Nat) (rest : List Nat)
    (htype : trans.header._type = .Config0Write e)
    (hdata : trans.data = some (v :: rest))
    (hbe : trans.header.byte_enable < 256)
    (hdvd : 2 ^ tzc ∣ trans.header.byte_enable)
    (hndvd : ¬ 2 ^ (tzc + 1) ∣ trans.header.byte_enable)
    (hv : v < 4294967296)
    (hlen : 8 - lz8 trans.header.byte_enable - tzc ≤ 4) :
    PciTestDevice.step cfg trans =
      some (cfg.write_config_register e.reg tzc
          ((leBytes32 (v >>> tzc)).take (8 - lz8 trans.header.byte_enable - tzc)),
        [completionDataTlp
          { requester := e.requester, completer := e.completer, tag := e.tag,
            status := 0, bcm := false, byte_count := 4,
            lower_address := 0 } [v]]) := by
  have hbe0 : trans.header.byte_enable ≠ 0 := by
    intro h0
    exact hndvd (h0 ▸ dvd_zero _)
  have htz : tz8 trans.header.byte_enable = tzc :=
    tz8_div _ _ hbe hdvd hndvd
  simp only [PciTestDevice.step, htype, hdata]
  unfold config0WriteDecode
  rw [Nat.mod_eq_of_lt hbe, if_neg hbe0, htz, if_pos hlen,
    Nat.mod_eq_of_lt hv]

/-- C10 witness: byte-enable 0x0C (t = 2, l = 2), payload 0x12345678,
register 4 of the reference test device. -/
theorem c10_witness :
    PciTestDevice.step testDeviceConfig c10tlp =
      some (testDeviceConfig.write_config_register 4 2
          ((leBytes32 (0x12345678 >>> 2)).take
            (8 - lz8 c10tlp.header.byte_enable - 2)),
        [completionDataTlp
          { requester := 0x40, completer := 0x60, tag := 0, status := 0,
            bcm := false, byte_count := 4,
            lower_address := 0 } [0x12345678]]) :=
  c10_config0_write testDeviceConfig c10tlp
    { requester := 0x40, completer := 0x60, tag := 0, reg := 4 }
    0x12345678 2 []
    (by decide) (by decide) (by decide) (by decide) (by decide) (by decide)
    (by decide)

end Pcie
